import Mathlib

/-!
Verification of the hotline voice-client core against its specification.

The Rust sources are shallowly embedded: audio samples are `ℚ` (the exact
model of the f32 pipeline), machine integers are `ℤ`/`ℕ` with explicit
modular arithmetic, and every Rust `panic!`/`unwrap` failure is an
`Except.error` carrying the panic message, so that "the process terminates"
is observable as an `error` result.
-/

namespace Hotline

/-! ## JSON values (the serde_json `Value` model) -/

/-- A JSON value, mirroring `serde_json::Value`. Numbers are `ℚ`. -/
inductive Json where
  | null
  | bool (b : Bool)
  | num (q : ℚ)
  | str (s : String)
  | arr (xs : List Json)
  | obj (fields : List (String × Json))

/-- `value["key"]` on a serde_json value: field lookup returning `null` when
the value is not an object or the key is absent. -/
def Json.getField : Json → String → Json
  | .obj fields, key =>
    match fields.find? (fun p => p.1 == key) with
    | some p => p.2
    | none => .null
  | _, _ => .null

/-- `Value::as_str`: `some` exactly on JSON strings. -/
def Json.asStr : Json → Option String
  | .str s => some s
  | _ => none

/-! ## Base64 (the `base64` crate's standard alphabet, with padding) -/

/-- The standard base64 alphabet: sextet value to character. -/
def sextetChar (n : ℕ) : Char :=
  if n < 26 then Char.ofNat (65 + n)
  else if n < 52 then Char.ofNat (97 + (n - 26))
  else if n < 62 then Char.ofNat (48 + (n - 52))
  else if n = 62 then '+'
  else '/'

/-- Inverse alphabet lookup; `none` on characters outside the alphabet. -/
def charSextet (c : Char) : Option ℕ :=
  if 'A' ≤ c ∧ c ≤ 'Z' then some (c.toNat - 65)
  else if 'a' ≤ c ∧ c ≤ 'z' then some (c.toNat - 97 + 26)
  else if '0' ≤ c ∧ c ≤ '9' then some (c.toNat - 48 + 52)
  else if c = '+' then some 62
  else if c = '/' then some 63
  else none

/-- Standard base64 encoding of a byte sequence (three bytes per four
characters, `=`-padded). -/
def b64Encode : List ℕ → List Char
  | [] => []
  | [b1] => [sextetChar (b1 / 4), sextetChar (b1 % 4 * 16), '=', '=']
  | [b1, b2] =>
    [sextetChar (b1 / 4), sextetChar (b1 % 4 * 16 + b2 / 16),
     sextetChar (b2 % 16 * 4), '=']
  | b1 :: b2 :: b3 :: rest =>
    sextetChar (b1 / 4) :: sextetChar (b1 % 4 * 16 + b2 / 16) ::
    sextetChar (b2 % 16 * 4 + b3 / 64) :: sextetChar (b3 % 64) :: b64Encode rest

/-- Standard base64 decoding; `none` on input the `base64` crate rejects
(bad length, characters outside the alphabet, interior padding). -/
def b64Decode : List Char → Option (List ℕ)
  | [] => some []
  | c1 :: c2 :: c3 :: c4 :: rest =>
    if c3 = '=' then
      if c4 = '=' ∧ rest = [] then
        match charSextet c1, charSextet c2 with
        | some v1, some v2 => some [v1 * 4 + v2 / 16]
        | _, _ => none
      else none
    else if c4 = '=' then
      if rest = [] then
        match charSextet c1, charSextet c2, charSextet c3 with
        | some v1, some v2, some v3 =>
          some [v1 * 4 + v2 / 16, v2 % 16 * 16 + v3 / 4]
        | _, _, _ => none
      else none
    else
      match charSextet c1, charSextet c2, charSextet c3, charSextet c4 with
      | some v1, some v2, some v3, some v4 =>
        match b64Decode rest with
        | some tail =>
          some ((v1 * 4 + v2 / 16) :: (v2 % 16 * 16 + v3 / 4) :: (v3 % 4 * 64 + v4) :: tail)
        | none => none
      | _, _, _, _ => none
  | _ => none

/-! ## PCM16 conversion (`audio_utils.rs`, `base64_encode_audio` /
`base64_decode_audio`) -/

/-- Truncation toward zero, as Rust's float-to-int `as` cast rounds. -/
def ratTrunc (q : ℚ) : ℤ :=
  if 0 ≤ q then ⌊q⌋ else ⌈q⌉

/-- Rust's saturating `as i16` cast applied to an (exact-arithmetic) float. -/
def f32_as_i16 (q : ℚ) : ℤ :=
  max (-32768) (min 32767 (ratTrunc q))

/-- `i16::to_le_bytes`: two's-complement little-endian byte pair. -/
def i16ToLeBytes (x : ℤ) : List ℕ :=
  [(x % 65536).toNat % 256, (x % 65536).toNat / 256]

/-- `i16::from_le_bytes` on a little-endian byte pair. -/
def i16FromLeBytes (b0 b1 : ℕ) : ℤ :=
  if b0 + 256 * b1 < 32768 then (b0 + 256 * b1 : ℤ)
  else (b0 + 256 * b1 : ℤ) - 65536

/-- `chunks_exact(2)` over a byte list: the pairs, dropping a dangling byte. -/
def chunksExact2 : List ℕ → List (ℕ × ℕ)
  | b0 :: b1 :: rest => (b0, b1) :: chunksExact2 rest
  | _ => []

/-- `base64_encode_audio`: each sample is scaled by `i16::MAX`, cast to
`i16`, serialized little-endian, and the bytes are base64-encoded. -/
def base64_encode_audio (samples : List ℚ) : List Char :=
  b64Encode (samples.flatMap (fun s => i16ToLeBytes (f32_as_i16 (s * 32767))))

/-- `base64_decode_audio`: base64-decode (the code unwraps the decode, so a
failure is a panic, modelled as `none`), then read consecutive byte pairs as
little-endian `i16` and divide by `i16::MAX`. -/
def base64_decode_audio (cs : List Char) : Option (List ℚ) :=
  (b64Decode cs).map (fun bytes =>
    (chunksExact2 bytes).map (fun p => (i16FromLeBytes p.1 p.2 : ℚ) / 32767))

/-! ## Resampling and channel conversion
(`audio_utils.rs`, `resample_and_convert_channels`) -/

/-- One destination sample of the resampling loop: destination index `i`
reads source position `i / factor`, linearly interpolating between the
floor index and `min (floor + 1) (len - 1)` with the fractional part
(`fract`) as weight. -/
def resampleAt (samples : List ℚ) (factor : ℚ) (i : ℕ) : ℚ :=
  let index : ℚ := (i : ℚ) / factor
  let index_floor : ℕ := (⌊index⌋).toNat
  let index_ceil : ℕ := min (index_floor + 1) (samples.length - 1)
  let t : ℚ := index - (⌊index⌋ : ℚ)
  samples.getD index_floor 0 * (1 - t) + samples.getD index_ceil 0 * t

/-- The resampling loop of `resample_and_convert_channels`: output length
`(len * target/current)` truncated, each destination index computed by
`resampleAt`. -/
def resampleLoop (samples : List ℚ) (current_sample_rate target_sample_rate : ℕ) : List ℚ :=
  let factor : ℚ := (target_sample_rate : ℚ) / (current_sample_rate : ℚ)
  let resampled_length : ℕ := (⌊(samples.length : ℚ) * factor⌋).toNat
  (List.range resampled_length).map (resampleAt samples factor)

/-- The stereo-to-mono arm: `chunks(2)` with each chunk summed and divided
by `2.0` (so a dangling final sample is halved). -/
def stereoToMonoLoop : List ℚ → List ℚ
  | a :: b :: rest => (a + b) / 2 :: stereoToMonoLoop rest
  | [a] => [a / 2]
  | [] => []

/-- `resample_and_convert_channels`: validate channel counts and rates,
resample, then convert channels. -/
def resample_and_convert_channels (samples : List ℚ)
    (current_sample_rate current_num_channels target_sample_rate target_num_channels : ℕ) :
    Except String (List ℚ) :=
  if current_num_channels ≠ 1 ∧ current_num_channels ≠ 2 then
    Except.error "Input must be mono or stereo"
  else if target_num_channels ≠ 1 ∧ target_num_channels ≠ 2 then
    Except.error "Output must be mono or stereo"
  else if current_sample_rate = 0 ∨ target_sample_rate = 0 then
    Except.error "Sample rates must be greater than zero"
  else
    let resampled_audio := resampleLoop samples current_sample_rate target_sample_rate
    match current_num_channels, target_num_channels with
    | 1, 2 => Except.ok (resampled_audio.flatMap (fun s => [s, s]))
    | 2, 1 => Except.ok (stereoToMonoLoop resampled_audio)
    | _, _ => Except.ok resampled_audio

/-- `convert_audio_to_server`: resample a capture chunk to the server's
24 kHz mono format and base64/PCM16-encode it. The code unwraps the
conversion result, so a conversion failure is a panic (`error`). -/
def convert_audio_to_server (samples : List ℚ) (sample_rate channels : ℕ) :
    Except String (List Char) :=
  match resample_and_convert_channels samples sample_rate channels 24000 1 with
  | Except.error e => Except.error e
  | Except.ok out => Except.ok (base64_encode_audio out)

/-- `convert_audio_from_server`: base64/PCM16-decode a server payload and
resample from 24 kHz mono to the output device format. Both the base64
decode and the conversion are unwrapped, so either failure is a panic. -/
def convert_audio_from_server (base64_audio_data : List Char) (sample_rate channels : ℕ) :
    Except String (List ℚ) :=
  match base64_decode_audio base64_audio_data with
  | none => Except.error "panic: base64 decode failed"
  | some samples =>
    match resample_and_convert_channels samples 24000 1 sample_rate channels with
    | Except.error e => Except.error e
    | Except.ok out => Except.ok out

/-! ## Ring buffer and the playback loop (`audio_utils.rs`,
`initialize_playback_stream`) -/

/-- The playback ring buffer: a fixed capacity and the samples currently
buffered (oldest first). -/
structure RingBuffer where
  capacity : ℕ
  data : List ℚ
deriving DecidableEq

/-- `is_full`: occupied slots have reached capacity. -/
def RingBuffer.isFull (rb : RingBuffer) : Bool :=
  rb.capacity ≤ rb.data.length

/-- `try_push` on a buffer known not to be full. -/
def RingBuffer.push (rb : RingBuffer) (s : ℚ) : RingBuffer :=
  { rb with data := rb.data ++ [s] }

/-- The body of the playback loop for one received chunk: for each sample,
if the buffer is full the sample is dropped (with a logged warning) and the
drop is counted, otherwise it is pushed. Returns the buffer and the number
of dropped samples. -/
def playback_push_chunk : RingBuffer → List ℚ → RingBuffer × ℕ
  | rb, [] => (rb, 0)
  | rb, s :: rest =>
    if rb.isFull then
      let r := playback_push_chunk rb rest
      (r.1, r.2 + 1)
    else
      playback_push_chunk (rb.push s) rest

/-! ## Playback commands (spec-modelled) -/

/-- A playback command, as referenced by `handle_events.rs`
(`PlaybackCommand::Play`, `PlaybackCommand::Stop`). -/
inductive PlaybackCommand where
  | Play (chunk : List ℚ)
  | Stop

/-- Modelled from the spec: the `PlaybackCommand` consumer loop is imported
by `handle_events.rs` from `audio_utils` but is absent from the sources
(`audio_utils.rs` only defines a `Vec<f32>` playback loop with no `Stop`
handling). Per §4.4, `Play` resamples the chunk and pushes its samples into
the playback ring buffer, backing off until space is available (so in this
sequential abstraction all samples are appended), and `Stop` acquires the
buffer and clears it, discarding all unplayed audio. The handler is total:
it never errors. -/
def apply_playback_command (rb : RingBuffer) : PlaybackCommand → RingBuffer
  | .Play chunk => { rb with data := rb.data ++ chunk }
  | .Stop => { rb with data := [] }

/-! ## Conversation model (`display_transcript.rs`) -/

/-- `ConversationItemContentType`. -/
inductive ConversationItemContentType where
  | Text
  | Audio
  | InputText
  | InputAudio
deriving DecidableEq

/-- `ConversationItemRole`. -/
inductive ConversationItemRole where
  | User
  | Assistant
  | System
deriving DecidableEq

/-- `ConversationItemStatus`. Note the Rust enum has a `Failed` variant. -/
inductive ConversationItemStatus where
  | Completed
  | InProgress
  | Failed
  | InComplete
deriving DecidableEq

/-- One content part of a conversation item. -/
structure ConversationItemContent where
  content_type : ConversationItemContentType
  text : Option String
  audio : Option String
  transcript : Option String
deriving DecidableEq

/-- `ConversationItemContent::new`: decode the content-type string,
panicking (`error`) on an unrecognized kind. -/
def ConversationItemContent.new (content_type : String)
    (text audio transcript : Option String) : Except String ConversationItemContent :=
  match content_type with
  | "text" => Except.ok ⟨.Text, text, audio, transcript⟩
  | "audio" => Except.ok ⟨.Audio, text, audio, transcript⟩
  | "input_text" => Except.ok ⟨.InputText, text, audio, transcript⟩
  | "input_audio" => Except.ok ⟨.InputAudio, text, audio, transcript⟩
  | other => Except.error ("Unrecognized content type: " ++ other)

/-- A conversation item. -/
structure ConversationItem where
  item_id : String
  role : ConversationItemRole
  status : ConversationItemStatus
  content : List ConversationItemContent
deriving DecidableEq

/-- `ConversationItem::new`: decode role and status strings. The status
match covers `completed`, `in_progress` and `incomplete` only — `failed`
falls to the catch-all panic arm, exactly as in the source. -/
def ConversationItem.new (item_id role status : String)
    (content : List ConversationItemContent) : Except String ConversationItem :=
  let roleResult : Except String ConversationItemRole :=
    match role with
    | "user" => Except.ok ConversationItemRole.User
    | "assistant" => Except.ok ConversationItemRole.Assistant
    | "system" => Except.ok ConversationItemRole.System
    | other => Except.error ("Unrecognized role: " ++ other)
  let statusResult : Except String ConversationItemStatus :=
    match status with
    | "completed" => Except.ok ConversationItemStatus.Completed
    | "in_progress" => Except.ok ConversationItemStatus.InProgress
    | "incomplete" => Except.ok ConversationItemStatus.InComplete
    | other => Except.error ("Unrecognized status: " ++ other)
  roleResult.bind (fun r => statusResult.map (fun st => ⟨item_id, r, st, content⟩))

/-- Association-list lookup, the model of `HashMap::get`. -/
def mapGet : List (String × ConversationItem) → String → Option ConversationItem
  | [], _ => none
  | (k, v) :: rest, key => if k == key then some v else mapGet rest key

/-- Association-list insert-or-replace, the model of `HashMap::insert`. -/
def mapSet : List (String × ConversationItem) → String → ConversationItem →
    List (String × ConversationItem)
  | [], key, v => [(key, v)]
  | (k, v0) :: rest, key, v =>
    if k == key then (key, v) :: rest else (k, v0) :: mapSet rest key v

/-- `ConversationTracker`: insertion order of item ids plus id-to-item map. -/
structure ConversationTracker where
  item_order : List String
  item_map : List (String × ConversationItem)
deriving DecidableEq

/-- `ConversationTracker::new`. -/
def ConversationTracker.new : ConversationTracker := ⟨[], []⟩

/-- `add_item`: append the id to the order list and insert into the map. -/
def ConversationTracker.add_item (tr : ConversationTracker) (item : ConversationItem) :
    ConversationTracker :=
  { item_order := tr.item_order ++ [item.item_id],
    item_map := mapSet tr.item_map item.item_id item }

/-- `get_item`. -/
def ConversationTracker.get_item (tr : ConversationTracker) (item_id : String) :
    Option ConversationItem :=
  mapGet tr.item_map item_id

/-- `update_item_content_transcript`: if the item exists and the index is in
range, append the delta to that part's transcript — the source first
unwraps the existing transcript, which panics (`error`) when it is absent;
if the index is out of range, push a new `text` content part whose
transcript is the delta; if the item does not exist, do nothing. -/
def ConversationTracker.update_item_content_transcript (tr : ConversationTracker)
    (item_id : String) (index : ℕ) (transcript_delta : String) :
    Except String ConversationTracker :=
  match mapGet tr.item_map item_id with
  | none => Except.ok tr
  | some item =>
    if h : index < item.content.length then
      match (item.content.get ⟨index, h⟩).transcript with
      | none => Except.error "panic: called Option::unwrap on a None value"
      | some current_transcript =>
        let updated_transcript := current_transcript ++ transcript_delta
        let part := item.content.get ⟨index, h⟩
        let item2 := { item with
          content := item.content.set index ({ part with transcript := some updated_transcript }) }
        Except.ok { tr with item_map := mapSet tr.item_map item_id item2 }
    else
      match ConversationItemContent.new "text" none none (some transcript_delta) with
      | Except.error e => Except.error e
      | Except.ok part =>
        Except.ok { tr with
          item_map := mapSet tr.item_map item_id
            { item with content := item.content ++ [part] } }

/-- `item_content_transcript_done`: overwrite the transcript at the index
with the authoritative value when the item exists and the index is in
range; otherwise do nothing. -/
def ConversationTracker.item_content_transcript_done (tr : ConversationTracker)
    (item_id : String) (index : ℕ) (transcript : String) : ConversationTracker :=
  match mapGet tr.item_map item_id with
  | none => tr
  | some item =>
    if h : index < item.content.length then
      let part := item.content.get ⟨index, h⟩
      let item2 := { item with
        content := item.content.set index ({ part with transcript := some transcript }) }
      { tr with item_map := mapSet tr.item_map item_id item2 }
    else tr

/-- `update_item_status`: set the status when the item exists. -/
def ConversationTracker.update_item_status (tr : ConversationTracker)
    (item_id : String) (status : ConversationItemStatus) : ConversationTracker :=
  match mapGet tr.item_map item_id with
  | none => tr
  | some item => { tr with item_map := mapSet tr.item_map item_id { item with status := status } }

/-- An inbound conversation event at the level the transcript display
decodes it: raw content parts are `(type, text, audio, transcript)`. -/
inductive ConvEvent where
  | item_created (id role status : String)
      (content : List (String × Option String × Option String × Option String))
  | transcript_delta (item_id : String) (content_index : ℕ) (delta : String)
  | transcript_done (item_id : String) (content_index : ℕ) (transcript : String)

/-- One step of the transcript-display fold (`create_transcript_display`):
`conversation.item.created` decodes the parts and the item and appends it;
`response.audio_transcript.delta` updates the addressed transcript;
`response.audio_transcript.done` marks the item completed and overwrites
the transcript. Decode panics surface as `error`. -/
def apply_conv_event (tr : ConversationTracker) : ConvEvent → Except String ConversationTracker
  | .item_created id role status content =>
    (content.mapM (fun c => ConversationItemContent.new c.1 c.2.1 c.2.2.1 c.2.2.2)).bind
      (fun parts => (ConversationItem.new id role status parts).map tr.add_item)
  | .transcript_delta item_id idx delta =>
    tr.update_item_content_transcript item_id idx delta
  | .transcript_done item_id idx transcript =>
    Except.ok ((tr.update_item_status item_id ConversationItemStatus.Completed).item_content_transcript_done
      item_id idx transcript)

/-- Folding a list of inbound events, stopping at the first panic. -/
def fold_conv_events (tr : ConversationTracker) : List ConvEvent → Except String ConversationTracker
  | [] => Except.ok tr
  | e :: rest =>
    match apply_conv_event tr e with
    | Except.error msg => Except.error msg
    | Except.ok tr2 => fold_conv_events tr2 rest

/-- The transcript stored at a given item id and content index. -/
def ConversationTracker.item_transcript_at (tr : ConversationTracker)
    (item_id : String) (index : ℕ) : Option String :=
  match mapGet tr.item_map item_id with
  | some item =>
    match item.content.get? index with
    | some part => part.transcript
    | none => none
  | none => none

/-- The status of a given item. -/
def ConversationTracker.item_status (tr : ConversationTracker) (item_id : String) :
    Option ConversationItemStatus :=
  (mapGet tr.item_map item_id).map (fun item => item.status)

/-! ## Events and the inbound reader (`handle_events.rs`, `client.rs`) -/

/-- Event source (`handle_events.rs`). -/
inductive Source where
  | Server
  | Client
deriving DecidableEq

/-- An event on the internal stream (`handle_events.rs`). -/
structure Event where
  event_type : String
  source : Source
  data : Json

/-- One message delivered on the WebSocket receive lane. `text` carries the
outcome serde_json's parse (an external collaborator) produced for the text
payload; `other` is a non-text frame; `failure` is a transport read error. -/
inductive WsMessage where
  | text (parsed : Option Json)
  | other
  | failure

/-- The inbound reader task (`start_handling_messages`): parseable text
frames become server-sourced events (type defaulting to `"unknown"`),
unparseable text frames and non-text frames are skipped, and a transport
read error ends the loop. The reader is a total function: it never
panics. -/
def reader_events : List WsMessage → List Event
  | [] => []
  | WsMessage.text (some v) :: rest =>
    { event_type := ((v.getField "type").asStr).getD "unknown",
      source := Source.Server, data := v } :: reader_events rest
  | WsMessage.text none :: rest => reader_events rest
  | WsMessage.other :: rest => reader_events rest
  | WsMessage.failure :: _ => []

/-- The playback-relevant dispatch of `handle_events`:
`response.audio.delta` unwraps the `delta` field as a string (panicking
when it is absent or not a string), decodes and resamples it for the output
device (each unwrap a panic), and issues `Play`;
`input_audio_buffer.speech_started` issues `Stop`; every other event type
issues nothing. -/
def handle_event_playback (output_sample_rate output_channels : ℕ) (e : Event) :
    Except String (List PlaybackCommand) :=
  if e.event_type = "response.audio.delta" then
    match (e.data.getField "delta").asStr with
    | none => Except.error "panic: called Option::unwrap on a None value"
    | some base64_audio_data =>
      match convert_audio_from_server base64_audio_data.toList output_sample_rate output_channels with
      | Except.error msg => Except.error msg
      | Except.ok samples => Except.ok [PlaybackCommand.Play samples]
  else if e.event_type = "input_audio_buffer.speech_started" then
    Except.ok [PlaybackCommand.Stop]
  else
    Except.ok []

/-! ## The session client (`client.rs`) -/

/-- The default `SessionConfig` (`config.rs`) as the JSON object
`session.update` carries (`input_audio_transcription` is skipped when
`None`). -/
def session_config_json : Json :=
  Json.obj
    [("modalities", Json.arr [Json.str "text", Json.str "audio"]),
     ("instructions", Json.str ""),
     ("voice", Json.str "alloy"),
     ("input_audio_format", Json.str "pcm16"),
     ("output_audio_format", Json.str "pcm16"),
     ("turn_detection", Json.obj [("type", Json.str "server_vad")]),
     ("tools", Json.arr []),
     ("tool_choice", Json.str "auto"),
     ("temperature", Json.num (8 / 10)),
     ("max_response_output_tokens", Json.num 4096)]

/-- The observable state of a `RealtimeClient`: the connection flag, the
two WebSocket halves (present or taken), the event types successfully
written to the transport in order, and the events published on the internal
stream. -/
structure ClientState where
  is_connected : Bool
  ws_read : Option Unit
  ws_write : Option Unit
  written : List String
  published : List Event

/-- A fresh client (`RealtimeClient::new`). -/
def ClientState.initial : ClientState :=
  { is_connected := false, ws_read := none, ws_write := none,
    written := [], published := [] }

/-- The shallow-merge step of `send`: `None` data contributes no fields, an
object contributes its fields, anything else is the
`Provided data is not a valid JSON object` error. -/
def merge_data : Option Json → Option (List (String × Json))
  | none => some []
  | some (Json.obj fields) => some fields
  | some _ => none

/-- `RealtimeClient::send`: build the envelope (fresh `event_id` passed in,
type, merged data fields), fail if the data is not an object, fail if the
write half is absent (`not connected`), write it on the transport
(`write_ok` is the transport collaborator's outcome), and only then publish
the client-sourced copy on the internal stream. Errors return the state
unchanged. -/
def client_send (s : ClientState) (event_type event_id : String) (data : Option Json)
    (write_ok : Bool) : Except String Unit × ClientState :=
  match merge_data data with
  | none => (Except.error "Provided data is not a valid JSON object", s)
  | some fields =>
    let event_data := Json.obj
      ([("type", Json.str event_type), ("event_id", Json.str event_id)] ++ fields)
    match s.ws_write with
    | none => (Except.error ("Cannot send " ++ event_type ++ " - client is not connected"), s)
    | some _ =>
      if write_ok then
        let ev : Event := { event_type := event_type, source := Source.Client, data := event_data }
        (Except.ok (),
         { s with written := s.written ++ [event_type], published := s.published ++ [ev] })
      else
        (Except.error "Failed to send message through WebSocket", s)

/-- `RealtimeClient::connect`: bail when already connected; open the
transport (`handshake_ok` is the collaborator's outcome) and on failure
return with the state untouched; otherwise store both halves, set
`is_connected`, hand the read half to the reader task, and send the initial
`session.update` envelope carrying the session config (`write_ok` is that
write's outcome). Mutations made before a failing step persist, as they do
on the Rust `&mut self`. -/
def client_connect (s : ClientState) (event_id : String) (handshake_ok write_ok : Bool) :
    Except String Unit × ClientState :=
  if s.is_connected then
    (Except.error "RealtimeClient is already connected, use .disconnect() first", s)
  else if handshake_ok = false then
    (Except.error "connect failed", s)
  else
    let s1 : ClientState := { s with ws_read := some (), ws_write := some (), is_connected := true }
    let s2 : ClientState := { s1 with ws_read := none }
    match client_send s2 "session.update" event_id
        (some (Json.obj [("session", session_config_json)])) write_ok with
    | (Except.ok _, s3) => (Except.ok (), s3)
    | (Except.error e, s3) => (Except.error e, s3)

/-- `RealtimeClient::disconnect`: bail when not connected; otherwise send a
close notification if the write half is present (`close_ok` its outcome),
release both halves and clear the flag. -/
def client_disconnect (s : ClientState) (close_ok : Bool) : Except String Unit × ClientState :=
  if s.is_connected then
    match s.ws_write with
    | some _ =>
      if close_ok then
        (Except.ok (), { s with ws_write := none, ws_read := none, is_connected := false })
      else
        (Except.error "Failed to send close message", s)
    | none =>
      (Except.ok (), { s with ws_write := none, ws_read := none, is_connected := false })
  else
    (Except.error "RealtimeClient is not connected", s)

/-! ## Specification-side definitions (for refinement claims) -/

/-- Written from the spec's words (§4.1): for destination index `i`, the
source position is `i / factor`; the destination sample blends the floor
and ceiling source samples with the fractional part as weight, the ceiling
index clamped to the last source index. -/
def specResampleAt (samples : List ℚ) (factor : ℚ) (i : ℕ) : ℚ :=
  let pos : ℚ := (i : ℚ) / factor
  let floorIdx : ℕ := (⌊pos⌋).toNat
  let ceilIdx : ℕ := min ((⌈pos⌉).toNat) (samples.length - 1)
  let w : ℚ := pos - (⌊pos⌋ : ℚ)
  samples.getD floorIdx 0 * (1 - w) + samples.getD ceilIdx 0 * w

/-- Written from the spec's words (§4.1): linear-interpolation resampling,
each destination index computed by `specResampleAt` with
`factor = dstRate/srcRate`. -/
def specResample (samples : List ℚ) (srcRate dstRate : ℕ) : List ℚ :=
  let factor : ℚ := (dstRate : ℚ) / (srcRate : ℚ)
  let outLen : ℕ := (⌊(samples.length : ℚ) * factor⌋).toNat
  (List.range outLen).map (specResampleAt samples factor)

/-- Written from the spec's words (§4.1): stereo-to-mono averages each
interleaved pair (a dangling final sample, which forms no pair, is summed
alone and still divided by two). -/
def specStereoToMono : List ℚ → List ℚ
  | left :: right :: rest => (left + right) / 2 :: specStereoToMono rest
  | [lone] => [lone / 2]
  | [] => []

/-- Written from the spec's words (§4.1): channel conversion after
resampling — mono-to-stereo duplicates each sample into two interleaved
slots, stereo-to-mono averages each interleaved pair, same-to-same is
unchanged. -/
def specChannelConvert (srcChannels dstChannels : ℕ) (xs : List ℚ) : List ℚ :=
  if srcChannels = 1 ∧ dstChannels = 2 then xs.flatMap (fun s => [s, s])
  else if srcChannels = 2 ∧ dstChannels = 1 then specStereoToMono xs
  else xs

/-- The validation domain of `resample_and_convert_channels`: channel
counts in `{1, 2}` and nonzero sample rates. -/
def convertParamsValid (current_sample_rate current_num_channels
    target_sample_rate target_num_channels : ℕ) : Prop :=
  (current_num_channels = 1 ∨ current_num_channels = 2) ∧
  (target_num_channels = 1 ∨ target_num_channels = 2) ∧
  current_sample_rate ≠ 0 ∧ target_sample_rate ≠ 0

instance (a b c d : ℕ) : Decidable (convertParamsValid a b c d) := by
  unfold convertParamsValid
  infer_instance

/-- A concrete conversation item whose single text part already carries the
transcript `"He"`. -/
def sampleItem : ConversationItem :=
  ⟨"a", ConversationItemRole.User, ConversationItemStatus.InProgress,
   [⟨ConversationItemContentType.Text, none, none, some "He"⟩]⟩

/-- A concrete tracker holding `sampleItem` under id `"a"`. -/
def sampleTracker : ConversationTracker := ⟨["a"], [("a", sampleItem)]⟩

/-! ## Helper lemmas -/

/-- Looking up a key just inserted returns the inserted item. -/
theorem mapGet_mapSet_self (m : List (String × ConversationItem)) (k : String)
    (v : ConversationItem) : mapGet (mapSet m k v) k = some v := by
  induction m with
  | nil => simp [mapSet, mapGet]
  | cons p rest ih =>
    cases hbk : p.1 == k with
    | true => simp [mapSet, mapGet, hbk]
    | false => simp [mapSet, mapGet, hbk, ih]

/-- The code's stereo-to-mono chunk loop agrees with the spec-side
pair-averaging definition. -/
theorem stereoToMonoLoop_eq_spec : ∀ xs : List ℚ, stereoToMonoLoop xs = specStereoToMono xs
  | [] => rfl
  | [_] => rfl
  | a :: b :: rest => by
    rw [stereoToMonoLoop, specStereoToMono, stereoToMonoLoop_eq_spec rest]

/-! ## Claim theorems -/

/-- Claim C4, counterexample: with a full playback ring buffer (capacity 1
holding one sample), the loop body for a received chunk `[1/2]` leaves the
buffer unchanged and counts one dropped sample — the sample is never pushed,
so the loop does drop samples of an accepted chunk instead of retrying. -/
theorem play_full_buffer_drops_sample :
    playback_push_chunk ⟨1, [0]⟩ [1 / 2] = (⟨1, [0]⟩, 1) ∧
    ((1 : ℚ) / 2) ∉ (playback_push_chunk ⟨1, [0]⟩ [1 / 2]).1.data := by
  refine ⟨by decide, ?_⟩
  have h1 : (playback_push_chunk ⟨1, [0]⟩ [1 / 2]).1.data = [0] := by decide
  rw [h1]
  norm_num

/-- Claim C4, amended: the playback loop pushes every sample of a received
chunk, in order, when the buffer has room for the whole chunk; but when the
buffer is full it logs and drops each arriving sample rather than backing
off and retrying. -/
theorem playback_push_chunk_policy (rb : RingBuffer) (chunk : List ℚ) :
    (rb.data.length + chunk.length ≤ rb.capacity →
      playback_push_chunk rb chunk = (⟨rb.capacity, rb.data ++ chunk⟩, 0)) ∧
    (rb.capacity ≤ rb.data.length →
      playback_push_chunk rb chunk = (rb, chunk.length)) := by
  induction chunk generalizing rb with
  | nil =>
    refine ⟨fun _ => ?_, fun _ => rfl⟩
    simp [playback_push_chunk]
  | cons s rest ih =>
    constructor
    · intro hroom
      simp only [List.length_cons] at hroom
      have hnotfull : rb.isFull = false := by
        simp only [RingBuffer.isFull, decide_eq_false_iff_not, not_le]
        omega
      have hnext := (ih (rb.push s)).1
        (by simp only [RingBuffer.push, List.length_append, List.length_singleton]; omega)
      simp only [playback_push_chunk, hnotfull, Bool.false_eq_true, if_false]
      rw [hnext]
      simp [RingBuffer.push, List.append_assoc]
    · intro hfull
      have hisfull : rb.isFull = true := by
        simp only [RingBuffer.isFull, decide_eq_true_eq]
        exact hfull
      simp [playback_push_chunk, hisfull, (ih rb).2 hfull]

/-- Witness for the amended C4 theorem: a chunk that fits is appended
whole with no drops, and a full buffer drops the whole chunk. -/
theorem playback_push_chunk_policy_w :
    ((⟨4, [0]⟩ : RingBuffer).data.length + [(1 : ℚ), 2].length ≤ (⟨4, [0]⟩ : RingBuffer).capacity ∧
      playback_push_chunk ⟨4, [0]⟩ [1, 2] = (⟨4, [0, 1, 2]⟩, 0)) ∧
    ((⟨1, [5]⟩ : RingBuffer).capacity ≤ (⟨1, [5]⟩ : RingBuffer).data.length ∧
      playback_push_chunk ⟨1, [5]⟩ [7] = (⟨1, [5]⟩, 1)) :=
  ⟨⟨by decide, (playback_push_chunk_policy ⟨4, [0]⟩ [1, 2]).1 (by decide)⟩,
   ⟨by decide, (playback_push_chunk_policy ⟨1, [5]⟩ [7]).2 (by decide)⟩⟩

/-- Claim C5 (code bug): decoding a `conversation.item.created` item whose
status is `"failed"` panics with `Unrecognized status: failed`, although
`ConversationItemStatus` has a `Failed` variant and the renderer displays
it — the status match simply omits the arm. The other three statuses
decode fine, and the fold fails on such an event. -/
theorem item_created_failed_status_panics :
    ConversationItem.new "item_1" "user" "failed" [] =
      Except.error "Unrecognized status: failed" ∧
    (ConversationItem.new "item_1" "user" "completed" []).isOk = true ∧
    (ConversationItem.new "item_1" "user" "in_progress" []).isOk = true ∧
    (ConversationItem.new "item_1" "user" "incomplete" []).isOk = true ∧
    apply_conv_event ConversationTracker.new
        (ConvEvent.item_created "item_1" "assistant" "failed" []) =
      Except.error "Unrecognized status: failed" := by
  exact ⟨rfl, rfl, rfl, rfl, rfl⟩

/-- Claim C6: `Stop` clears the playback buffer and is idempotent — after
one `Stop` the buffer is empty, and after a second `Stop` it is empty
again; the handler is a total function, so it never errors. -/
theorem stop_idempotent_clears_playback (rb : RingBuffer) :
    (apply_playback_command rb PlaybackCommand.Stop).data = [] ∧
    (apply_playback_command (apply_playback_command rb PlaybackCommand.Stop)
        PlaybackCommand.Stop).data = [] :=
  ⟨rfl, rfl⟩

/-- Claim C2, counterexample: starting from a fresh client, a connect whose
transport handshake succeeds but whose initial `session.update` write fails
returns an error — yet leaves the engine marked connected, because
`is_connected` is set before `update_session` runs. -/
theorem connect_failure_leaves_connected_flag :
    (client_connect ClientState.initial "e1" true false).1 =
      Except.error "Failed to send message through WebSocket" ∧
    (client_connect ClientState.initial "e1" true false).2.is_connected = true :=
  ⟨rfl, rfl⟩

/-- Claim C2, amended: from a disconnected state, a failed handshake leaves
the engine untouched (not connected); once the handshake succeeds the
engine is marked connected *before* the initial `session.update` envelope
carrying the SessionConfig is sent — on a successful write connect returns
ok with `session.update` written, but on a failed write connect returns an
error while the engine stays marked connected and nothing is written. -/
theorem connect_marks_connected_before_session_update (s : ClientState) (eid : String)
    (wo : Bool) (h : s.is_connected = false) :
    client_connect s eid false wo = (Except.error "connect failed", s) ∧
    (client_connect s eid true wo).2.is_connected = true ∧
    (wo = true → (client_connect s eid true wo).1 = Except.ok () ∧
      (client_connect s eid true wo).2.written = s.written ++ ["session.update"]) ∧
    (wo = false → (client_connect s eid true wo).1 =
        Except.error "Failed to send message through WebSocket" ∧
      (client_connect s eid true wo).2.written = s.written) := by
  cases wo <;>
    simp [client_connect, client_send, merge_data, h]

/-- Witness for the amended C2 theorem, at a fresh client with a failing
`session.update` write. -/
theorem connect_marks_connected_before_session_update_w :
    ClientState.initial.is_connected = false ∧
    (client_connect ClientState.initial "e1" true false).1 =
        Except.error "Failed to send message through WebSocket" ∧
    (client_connect ClientState.initial "e1" true false).2.written =
        ClientState.initial.written :=
  ⟨rfl,
   (connect_marks_connected_before_session_update ClientState.initial "e1" false rfl).2.2.2 rfl⟩

/-- Claim C9: connecting while already connected fails with the
`already connected` error and changes nothing; sending while the write half
is absent (in particular on a fresh client, where the data merge succeeds
for the public send paths) fails with the `not connected` error, writing no
envelope and publishing nothing; disconnecting while not connected fails
with the `not connected` error. -/
theorem connection_state_preconditions (s : ClientState) (eid etype : String)
    (hs wo dwo cok : Bool) (data : Option Json) :
    (s.is_connected = true →
      client_connect s eid hs wo =
        (Except.error "RealtimeClient is already connected, use .disconnect() first", s)) ∧
    (s.ws_write = none → (merge_data data).isSome = true →
      client_send s etype eid data dwo =
        (Except.error ("Cannot send " ++ etype ++ " - client is not connected"), s)) ∧
    (s.is_connected = false →
      client_disconnect s cok = (Except.error "RealtimeClient is not connected", s)) := by
  refine ⟨fun hc => ?_, fun hw hm => ?_, fun hc => ?_⟩
  · simp [client_connect, hc]
  · cases hmd : merge_data data with
    | none => rw [hmd] at hm; simp at hm
    | some fields => simp [client_send, hmd, hw]
  · simp [client_disconnect, hc]

/-- Witness for C9: a connected client rejects a second connect; a fresh
client rejects send and disconnect. -/
theorem connection_state_preconditions_w :
    ((⟨true, none, some (), [], []⟩ : ClientState).is_connected = true ∧
      client_connect ⟨true, none, some (), [], []⟩ "e1" true true =
        (Except.error "RealtimeClient is already connected, use .disconnect() first",
         ⟨true, none, some (), [], []⟩)) ∧
    (ClientState.initial.ws_write = none ∧ (merge_data none).isSome = true ∧
      client_send ClientState.initial "response.create" "e2" none true =
        (Except.error ("Cannot send " ++ "response.create" ++ " - client is not connected"),
         ClientState.initial)) ∧
    (ClientState.initial.is_connected = false ∧
      client_disconnect ClientState.initial true =
        (Except.error "RealtimeClient is not connected", ClientState.initial)) :=
  ⟨⟨rfl, (connection_state_preconditions ⟨true, none, some (), [], []⟩ "e1" "x" true true
      true true none).1 rfl⟩,
   ⟨rfl, rfl, (connection_state_preconditions ClientState.initial "e2" "response.create" true
      true true true none).2.1 rfl rfl⟩,
   ⟨rfl, (connection_state_preconditions ClientState.initial "e" "x" true true true true
      none).2.2 rfl⟩⟩

/-- Claim C10: whenever `send` fails — the write half absent (not
connected) or the transport write failing — the call does not return ok
and the state, in particular the list of locally published client-sourced
events, is unchanged: the local copy of the envelope is published only
after the transport write has succeeded. -/
theorem send_publishes_only_after_write (s : ClientState) (etype eid : String)
    (data : Option Json) (wo : Bool) (h : s.ws_write = none ∨ wo = false) :
    (client_send s etype eid data wo).1 ≠ Except.ok () ∧
    (client_send s etype eid data wo).2.published = s.published := by
  cases hmd : merge_data data with
  | none => simp [client_send, hmd]
  | some fields =>
    cases hww : s.ws_write with
    | none => simp [client_send, hmd, hww]
    | some u =>
      have hwo : wo = false := by
        rcases h with h | h
        · rw [h] at hww; cases hww
        · exact h
      simp [client_send, hmd, hww, hwo]

/-- Witness for C10: a fresh (disconnected) client sending
`response.create` fails and publishes nothing. -/
theorem send_publishes_only_after_write_w :
    (client_send ClientState.initial "response.create" "e1" none true).1 ≠ Except.ok () ∧
    (client_send ClientState.initial "response.create" "e1" none true).2.published =
      ClientState.initial.published :=
  send_publishes_only_after_write ClientState.initial "response.create" "e1" none true
    (Or.inl rfl)

/-- Claim C1, counterexample: a well-formed `response.audio.delta` envelope
that merely lacks the `delta` field makes the event handler panic (the
`as_str().unwrap()`), terminating the process instead of containing the
error; likewise a capture chunk whose resampling fails (here: sample rate
zero) panics inside `convert_audio_to_server` via `unwrap`. -/
theorem malformed_delta_terminates_process :
    handle_event_playback 48000 2
        { event_type := "response.audio.delta", source := Source.Server,
          data := Json.obj [("type", Json.str "response.audio.delta")] } =
      Except.error "panic: called Option::unwrap on a None value" ∧
    convert_audio_to_server [0] 0 1 =
      Except.error "Sample rates must be greater than zero" :=
  ⟨rfl, rfl⟩

/-- Claim C1, amended: containment holds only at the reader level — a text
frame that fails JSON parsing is dropped and the following messages are
still processed, and the reader itself is total (never panics); but once a
parsed `response.audio.delta` event reaches the handler without a string
`delta` field the handler panics and the process terminates, and a capture
chunk whose resampling fails likewise panics. -/
theorem single_message_error_containment :
    (∀ rest : List WsMessage,
      reader_events (WsMessage.text none :: rest) = reader_events rest) ∧
    (∀ (v : Json) (rest : List WsMessage),
      reader_events (WsMessage.text (some v) :: rest) =
        { event_type := ((v.getField "type").asStr).getD "unknown",
          source := Source.Server, data := v } :: reader_events rest) ∧
    handle_event_playback 48000 2
        { event_type := "response.audio.delta", source := Source.Server,
          data := Json.obj [("type", Json.str "response.audio.delta")] } =
      Except.error "panic: called Option::unwrap on a None value" ∧
    convert_audio_to_server [0] 0 1 =
      Except.error "Sample rates must be greater than zero" :=
  ⟨fun _ => rfl, fun _ _ => rfl, rfl, rfl⟩

/-- Claim C3, counterexample: an item created with one `text` content part
that has no transcript (`{type: "text", text: "hi"}`), followed by a
`transcript.delta` at index 0, panics — the source unwraps the existing
transcript before appending — so the fold dies instead of appending the
delta. -/
theorem transcript_delta_without_transcript_panics :
    fold_conv_events ConversationTracker.new
        [ConvEvent.item_created "a" "user" "in_progress" [("text", some "hi", none, none)],
         ConvEvent.transcript_delta "a" 0 "x"] =
      Except.error "panic: called Option::unwrap on a None value" :=
  rfl

/-- Claim C3, amended: the concrete scenario holds — folding
`item.created("a", user)`, deltas `"He"` and `"llo"`, then `done "Hello!"`
at index 0 yields transcript exactly `"Hello!"` with status completed. In
general a delta appends to an existing part only when that part already
carries a transcript (otherwise the fold panics, see the counterexample);
a delta addressed past the end creates a new text part whose transcript is
the delta; and a done event overwrites the transcript at an existing index
and marks the item completed. -/
theorem transcript_fold_rules (tr : ConversationTracker) (id : String) (idx : ℕ)
    (delta final : String) (item : ConversationItem) :
    ((fold_conv_events ConversationTracker.new
        [ConvEvent.item_created "a" "user" "in_progress" [],
         ConvEvent.transcript_delta "a" 0 "He",
         ConvEvent.transcript_delta "a" 0 "llo",
         ConvEvent.transcript_done "a" 0 "Hello!"]).map
        (fun t => (t.item_transcript_at "a" 0, t.item_status "a")) =
      Except.ok (some "Hello!", some ConversationItemStatus.Completed)) ∧
    (mapGet tr.item_map id = some item →
      ∀ part t, item.content.get? idx = some part → part.transcript = some t →
        tr.update_item_content_transcript id idx delta =
          Except.ok ⟨tr.item_order, mapSet tr.item_map id
            ⟨item.item_id, item.role, item.status,
             item.content.set idx ⟨part.content_type, part.text, part.audio,
               some (t ++ delta)⟩⟩⟩) ∧
    (mapGet tr.item_map id = some item → item.content.length ≤ idx →
      tr.update_item_content_transcript id idx delta =
        Except.ok ⟨tr.item_order, mapSet tr.item_map id
          ⟨item.item_id, item.role, item.status,
           item.content ++ [⟨ConversationItemContentType.Text, none, none, some delta⟩]⟩⟩) ∧
    (mapGet tr.item_map id = some item → idx < item.content.length →
      (apply_conv_event tr (ConvEvent.transcript_done id idx final)).map
          (fun t => (t.item_transcript_at id idx, t.item_status id)) =
        Except.ok (some final, some ConversationItemStatus.Completed)) := by
  refine ⟨rfl, fun hget part t hgetpart htr => ?_, fun hget hle => ?_, fun hget hlt => ?_⟩
  · obtain ⟨hlt, hgeteq⟩ := List.get?_eq_some.mp hgetpart
    simp only [ConversationTracker.update_item_content_transcript, hget, hlt, dif_pos,
      hgeteq, htr]
  · have hnlt : ¬ idx < item.content.length := by omega
    simp only [ConversationTracker.update_item_content_transcript, hget, hnlt, dif_neg,
      not_false_iff, ConversationItemContent.new]
  · simp only [apply_conv_event, ConversationTracker.update_item_status, hget]
    simp only [ConversationTracker.item_content_transcript_done, mapGet_mapSet_self]
    have hlt2 : idx < (({ item with status := ConversationItemStatus.Completed } :
        ConversationItem)).content.length := hlt
    simp only [hlt2, dif_pos]
    simp only [Except.map, ConversationTracker.item_transcript_at,
      ConversationTracker.item_status, mapGet_mapSet_self]
    simp [List.get?_eq_getElem?, List.getElem?_set_eq_of_lt _ hlt]

/-- Witness for the amended C3 theorem, at a concrete tracker: appending a
delta to a part carrying `"He"`, creating a new part at index 1, and
completing index 0 with `"Hello!"`. -/
theorem transcript_fold_rules_w :
    (sampleTracker.update_item_content_transcript "a" 0 "llo" =
      Except.ok ⟨sampleTracker.item_order, mapSet sampleTracker.item_map "a"
        ⟨sampleItem.item_id, sampleItem.role, sampleItem.status,
         sampleItem.content.set 0 ⟨ConversationItemContentType.Text, none, none,
           some ("He" ++ "llo")⟩⟩⟩) ∧
    (sampleTracker.update_item_content_transcript "a" 1 "new" =
      Except.ok ⟨sampleTracker.item_order, mapSet sampleTracker.item_map "a"
        ⟨sampleItem.item_id, sampleItem.role, sampleItem.status,
         sampleItem.content ++
           [⟨ConversationItemContentType.Text, none, none, some "new"⟩]⟩⟩) ∧
    ((apply_conv_event sampleTracker (ConvEvent.transcript_done "a" 0 "Hello!")).map
        (fun t => (t.item_transcript_at "a" 0, t.item_status "a")) =
      Except.ok (some "Hello!", some ConversationItemStatus.Completed)) :=
  ⟨(transcript_fold_rules sampleTracker "a" 0 "llo" "x" sampleItem).2.1 rfl
      ⟨ConversationItemContentType.Text, none, none, some "He"⟩ "He" rfl rfl,
   (transcript_fold_rules sampleTracker "a" 1 "new" "x" sampleItem).2.2.1 rfl
      (by decide),
   (transcript_fold_rules sampleTracker "a" 0 "d" "Hello!" sampleItem).2.2.2 rfl
      (by decide)⟩

/-- Pointwise refinement of the resampling step: the code's
`min (floor + 1) (len - 1)` ceiling agrees with the spec's clamped `⌈pos⌉`
— when the fractional part is zero the interpolation weight vanishes and
both sides reduce to the floor sample; otherwise `⌈pos⌉ = ⌊pos⌋ + 1`. -/
theorem resampleAt_eq_spec (samples : List ℚ) (factor : ℚ) (i : ℕ)
    (hf : 0 < factor) : resampleAt samples factor i = specResampleAt samples factor i := by
  simp only [resampleAt, specResampleAt]
  set pos : ℚ := (i : ℚ) / factor with hposdef
  have hpos : 0 ≤ pos := div_nonneg (Nat.cast_nonneg i) hf.le
  by_cases ht : pos - (⌊pos⌋ : ℚ) = 0
  · rw [ht]
    ring
  · have h1 : (⌊pos⌋ : ℚ) < pos :=
      lt_of_le_of_ne (Int.floor_le pos) (fun he => ht (sub_eq_zero.mpr he.symm))
    have hceil : ⌈pos⌉ = ⌊pos⌋ + 1 := by
      have h2 := Int.ceil_le_floor_add_one pos
      have h3 : ⌊pos⌋ < ⌈pos⌉ := by exact_mod_cast lt_of_lt_of_le h1 (Int.le_ceil pos)
      omega
    have hflnn : 0 ≤ ⌊pos⌋ := Int.floor_nonneg.mpr hpos
    have htn : (⌊pos⌋ + 1).toNat = (⌊pos⌋).toNat + 1 := by omega
    rw [hceil, htn]

/-- The code's resampling loop equals the spec's, given nonzero rates. -/
theorem resampleLoop_eq_spec (samples : List ℚ) (srcR dstR : ℕ)
    (hsrc : srcR ≠ 0) (hdst : dstR ≠ 0) :
    resampleLoop samples srcR dstR = specResample samples srcR dstR := by
  have hf : 0 < (dstR : ℚ) / (srcR : ℚ) := by
    apply div_pos <;> exact_mod_cast Nat.pos_of_ne_zero (by assumption)
  have hfun : resampleAt samples ((dstR : ℚ) / (srcR : ℚ)) =
      specResampleAt samples ((dstR : ℚ) / (srcR : ℚ)) :=
    funext (fun i => resampleAt_eq_spec samples _ i hf)
  simp only [resampleLoop, specResample, hfun]

/-- On valid parameters, `resample_and_convert_channels` returns exactly
the spec-side resampling followed by the spec-side channel conversion. -/
theorem resample_and_convert_eq_ok (samples : List ℚ) (srcR srcC dstR dstC : ℕ)
    (h : convertParamsValid srcR srcC dstR dstC) :
    resample_and_convert_channels samples srcR srcC dstR dstC =
      Except.ok (specChannelConvert srcC dstC (specResample samples srcR dstR)) := by
  obtain ⟨hc1, hc2, hr1, hr2⟩ := h
  have hrs := resampleLoop_eq_spec samples srcR dstR hr1 hr2
  rcases hc1 with rfl | rfl <;> rcases hc2 with rfl | rfl <;>
    simp [resample_and_convert_channels, hr1, hr2, specChannelConvert, hrs,
      stereoToMonoLoop_eq_spec]

/-- Claim C7: the full contract of `resample_and_convert_channels` — it
returns a validation error exactly when a channel count is outside `{1,2}`
or a sample rate is zero, and on every other input it returns
linear-interpolation resampling followed by channel conversion, as the
spec describes them. -/
theorem resample_convert_contract (samples : List ℚ) (srcR srcC dstR dstC : ℕ) :
    ((∃ e, resample_and_convert_channels samples srcR srcC dstR dstC = Except.error e) ↔
      ¬ convertParamsValid srcR srcC dstR dstC) ∧
    (convertParamsValid srcR srcC dstR dstC →
      resample_and_convert_channels samples srcR srcC dstR dstC =
        Except.ok (specChannelConvert srcC dstC (specResample samples srcR dstR))) := by
  refine ⟨⟨?_, ?_⟩, resample_and_convert_eq_ok samples srcR srcC dstR dstC⟩
  · rintro ⟨e, he⟩ hv
    rw [resample_and_convert_eq_ok samples srcR srcC dstR dstC hv] at he
    cases he
  · intro hnv
    unfold resample_and_convert_channels
    by_cases h1 : srcC ≠ 1 ∧ srcC ≠ 2
    · rw [if_pos h1]; exact ⟨_, rfl⟩
    · rw [if_neg h1]
      by_cases h2 : dstC ≠ 1 ∧ dstC ≠ 2
      · rw [if_pos h2]; exact ⟨_, rfl⟩
      · rw [if_neg h2]
        by_cases h3 : srcR = 0 ∨ dstR = 0
        · rw [if_pos h3]; exact ⟨_, rfl⟩
        · exfalso
          exact hnv ⟨by omega, by omega, by omega, by omega⟩

/-- Witness for C7: a 48 kHz stereo chunk converted to 24 kHz mono. -/
theorem resample_convert_contract_w :
    convertParamsValid 48000 2 24000 1 ∧
    resample_and_convert_channels [1, 0, -1, 1 / 2] 48000 2 24000 1 =
      Except.ok (specChannelConvert 2 1 (specResample [1, 0, -1, 1 / 2] 48000 24000)) :=
  ⟨by decide, (resample_convert_contract [1, 0, -1, 1 / 2] 48000 2 24000 1).2 (by decide)⟩

/-- The base64 alphabet round-trips through its inverse lookup. -/
theorem charSextet_sextetChar : ∀ n, n < 64 → charSextet (sextetChar n) = some n := by decide

/-- No alphabet character is the padding character. -/
theorem sextetChar_ne_pad : ∀ n, n < 64 → sextetChar n ≠ '=' := by decide

/-- Base64 decoding inverts base64 encoding on byte sequences. -/
theorem b64_roundtrip : ∀ bs : List ℕ, (∀ b ∈ bs, b < 256) →
    b64Decode (b64Encode bs) = some bs
  | [], _ => rfl
  | [b1], h => by
    have hb1 : b1 < 256 := h b1 (by simp)
    simp only [b64Encode, b64Decode, and_self, if_true,
      charSextet_sextetChar _ (show b1 / 4 < 64 by omega),
      charSextet_sextetChar _ (show b1 % 4 * 16 < 64 by omega)]
    have e1 : b1 / 4 * 4 + b1 % 4 * 16 / 16 = b1 := by omega
    simp only [e1]
  | [b1, b2], h => by
    have hb1 : b1 < 256 := h b1 (by simp)
    have hb2 : b2 < 256 := h b2 (by simp)
    simp only [b64Encode, b64Decode]
    rw [if_neg (sextetChar_ne_pad _ (show b2 % 16 * 4 < 64 by omega))]
    simp only [if_true,
      charSextet_sextetChar _ (show b1 / 4 < 64 by omega),
      charSextet_sextetChar _ (show b1 % 4 * 16 + b2 / 16 < 64 by omega),
      charSextet_sextetChar _ (show b2 % 16 * 4 < 64 by omega)]
    have e1 : b1 / 4 * 4 + (b1 % 4 * 16 + b2 / 16) / 16 = b1 := by omega
    have e2 : (b1 % 4 * 16 + b2 / 16) % 16 * 16 + b2 % 16 * 4 / 4 = b2 := by omega
    simp only [e1, e2]
  | b1 :: b2 :: b3 :: rest, h => by
    have hb1 : b1 < 256 := h b1 (by simp)
    have hb2 : b2 < 256 := h b2 (by simp)
    have hb3 : b3 < 256 := h b3 (by simp)
    have ih := b64_roundtrip rest (fun b hb => h b (by simp [hb]))
    simp only [b64Encode, b64Decode]
    rw [if_neg (sextetChar_ne_pad _ (show b2 % 16 * 4 + b3 / 64 < 64 by omega)),
      if_neg (sextetChar_ne_pad _ (show b3 % 64 < 64 by omega))]
    simp only [charSextet_sextetChar _ (show b1 / 4 < 64 by omega),
      charSextet_sextetChar _ (show b1 % 4 * 16 + b2 / 16 < 64 by omega),
      charSextet_sextetChar _ (show b2 % 16 * 4 + b3 / 64 < 64 by omega),
      charSextet_sextetChar _ (show b3 % 64 < 64 by omega), ih]
    have e1 : b1 / 4 * 4 + (b1 % 4 * 16 + b2 / 16) / 16 = b1 := by omega
    have e2 : (b1 % 4 * 16 + b2 / 16) % 16 * 16 + (b2 % 16 * 4 + b3 / 64) / 4 = b2 := by omega
    have e3 : (b2 % 16 * 4 + b3 / 64) % 4 * 64 + b3 % 64 = b3 := by omega
    simp only [e1, e2, e3]

/-- The little-endian byte pair of an `i16` consists of bytes. -/
theorem i16ToLeBytes_lt (x : ℤ) : ∀ b ∈ i16ToLeBytes x, b < 256 := by
  intro b hb
  simp only [i16ToLeBytes, List.mem_cons, List.mem_singleton, List.not_mem_nil, or_false] at hb
  rcases hb with rfl | rfl <;> omega

/-- `from_le_bytes` inverts `to_le_bytes` on the `i16` range. -/
theorem i16_le_bytes_roundtrip (x : ℤ) (h1 : -32768 ≤ x) (h2 : x ≤ 32767) :
    i16FromLeBytes ((x % 65536).toNat % 256) ((x % 65536).toNat / 256) = x := by
  unfold i16FromLeBytes
  split <;> omega

/-- `chunks_exact(2)` recovers the pairs of a two-byte-per-element
flat-mapped list. -/
theorem chunksExact2_flatMap_pair (xs : List ℚ) (f g : ℚ → ℕ) :
    chunksExact2 (xs.flatMap (fun x => [f x, g x])) = xs.map (fun x => (f x, g x)) := by
  induction xs with
  | nil => rfl
  | cons x rest ih =>
    rw [List.flatMap_cons, List.cons_append, List.cons_append, List.nil_append]
    simp only [chunksExact2, ih, List.map_cons]

/-- Truncation toward zero moves a rational by at most one. -/
theorem ratTrunc_sub_le (q : ℚ) : |(ratTrunc q : ℚ) - q| ≤ 1 := by
  unfold ratTrunc
  split
  · rw [abs_sub_comm, abs_of_nonneg (sub_nonneg.mpr (Int.floor_le q))]
    have := Int.lt_floor_add_one q
    linarith
  · rw [abs_of_nonneg (sub_nonneg.mpr (Int.le_ceil q))]
    have := Int.ceil_lt_add_one q
    linarith

/-- Truncation respects the upper `i16` bound. -/
theorem ratTrunc_le_top (q : ℚ) (h : q ≤ 32767) : ratTrunc q ≤ 32767 := by
  unfold ratTrunc
  split
  · have hfl := Int.floor_le q
    have : (⌊q⌋ : ℚ) ≤ 32767 := le_trans hfl h
    exact_mod_cast this
  · exact Int.ceil_le.mpr (by push_cast; linarith)

/-- Truncation respects the lower `i16` bound. -/
theorem ratTrunc_ge_bot (q : ℚ) (h : -32767 ≤ q) : -32768 ≤ ratTrunc q := by
  unfold ratTrunc
  split
  · have hfl : (0 : ℤ) ≤ ⌊q⌋ := Int.floor_nonneg.mpr (by assumption)
    omega
  · have hce := Int.le_ceil q
    have : (-32768 : ℚ) ≤ (⌈q⌉ : ℚ) := le_trans (by linarith) hce
    exact_mod_cast this

/-- On values already in the `i16` range, the saturating cast is plain
truncation. -/
theorem f32_as_i16_no_clamp (q : ℚ) (h1 : -32767 ≤ q) (h2 : q ≤ 32767) :
    f32_as_i16 q = ratTrunc q := by
  have ha := ratTrunc_le_top q h2
  have hb := ratTrunc_ge_bot q h1
  unfold f32_as_i16
  omega

/-- The saturating cast always lands in the `i16` range. -/
theorem f32_as_i16_range (q : ℚ) : -32768 ≤ f32_as_i16 q ∧ f32_as_i16 q ≤ 32767 := by
  unfold f32_as_i16
  omega

/-- One sample's quantization error is at most one step, `1/32767`. -/
theorem pcm16_quant (s : ℚ) (h1 : -1 ≤ s) (h2 : s ≤ 1) :
    |((f32_as_i16 (s * 32767) : ℤ) : ℚ) / 32767 - s| ≤ 1 / 32767 := by
  rw [f32_as_i16_no_clamp _ (by linarith) (by linarith)]
  have hb := ratTrunc_sub_le (s * 32767)
  have heq : ((ratTrunc (s * 32767) : ℚ)) / 32767 - s =
      ((ratTrunc (s * 32767) : ℚ) - s * 32767) / 32767 := by ring
  rw [heq, abs_div, abs_of_pos (show (0 : ℚ) < 32767 by norm_num)]
  gcongr

/-- Claim C8: decoding the encoding of any sample sequence whose samples
lie in `[-1, 1]` succeeds, preserves the length, and reproduces every
sample to within one quantization step, `1/32767`. -/
theorem pcm16_base64_roundtrip (samples : List ℚ)
    (h : ∀ s ∈ samples, -1 ≤ s ∧ s ≤ 1) :
    ∃ decoded, base64_decode_audio (base64_encode_audio samples) = some decoded ∧
      decoded.length = samples.length ∧
      ∀ i a b, decoded.get? i = some a → samples.get? i = some b →
        |a - b| ≤ 1 / 32767 := by
  have hbytes : ∀ b ∈ samples.flatMap (fun s => i16ToLeBytes (f32_as_i16 (s * 32767))),
      b < 256 := by
    intro b hb
    rw [List.mem_flatMap] at hb
    obtain ⟨s, _, hbs⟩ := hb
    exact i16ToLeBytes_lt _ b hbs
  unfold base64_decode_audio base64_encode_audio
  rw [b64_roundtrip _ hbytes]
  simp only [Option.map_some', i16ToLeBytes]
  rw [chunksExact2_flatMap_pair]
  refine ⟨_, rfl, by simp, ?_⟩
  intro i a b ha hb
  have hmem := List.get?_mem hb
  simp only [List.get?_eq_getElem?, List.getElem?_map] at ha hb
  rw [hb] at ha
  simp only [Option.map_some'] at ha
  obtain ⟨hs1, hs2⟩ := h b hmem
  have hrange := f32_as_i16_range (b * 32767)
  have hrt := i16_le_bytes_roundtrip (f32_as_i16 (b * 32767)) hrange.1 hrange.2
  rw [hrt] at ha
  rw [← Option.some.inj ha]
  exact pcm16_quant b hs1 hs2

/-- Witness for C8: the round trip on the concrete samples `1, 0, -1`. -/
theorem pcm16_base64_roundtrip_w :
    ∃ decoded, base64_decode_audio (base64_encode_audio [1, 0, -1]) = some decoded ∧
      decoded.length = ([1, 0, -1] : List ℚ).length ∧
      ∀ i a b, decoded.get? i = some a → ([1, 0, -1] : List ℚ).get? i = some b →
        |a - b| ≤ 1 / 32767 :=
  pcm16_base64_roundtrip [1, 0, -1] (by decide)

end Hotline
